import Mathlib

/-!
Shallow embedding of the `heartbeat` Go package (twistingmercury/heartbeat),
covering the dependency-check aggregation core in `heartbeat.go`:

* the severity enum `Status` from `health_status.go` (go-enum assigns the
  listed ranks in order: NotSet = 0, OK = 1, Warning = 2, Critical = 3;
  the Go type is `type Status int`, so arbitrary integer values are
  representable and compared numerically);
* `checkURL` — the URL prober;
* `executeHandlerWithTimeout` — the handler executor;
* `checkDeps` — the concurrent aggregator.

Effects of the outside world (URL parsing by the Go standard library, the
network round trip, the user-supplied handler function, and the scheduling
race between a handler's result delivery and the bounded context) are
modelled as explicit oracle inputs (`ParseOutcome`, `RequestOutcome`,
`HandlerOutcome`, `arrivesInTime`, a completion order for the aggregator's
mutex-protected status fold).  Go's `float64` latency field is modelled as
`ℚ`, and `time.Duration` (an `int64` nanosecond count) as `Int`
(nonnegative measured elapsed times as `Nat`).
-/

namespace Heartbeat

/-- The Go type `Status` is `type Status int`; the four enum constants are
generated by go-enum from the listed order in `health_status.go`. -/
abbrev Status := Int

/-- Rank 0, the zero value of the `Status` type. -/
def StatusNotSet : Status := 0

/-- Rank 1. -/
def StatusOK : Status := 1

/-- Rank 2. -/
def StatusWarning : Status := 2

/-- Rank 3. -/
def StatusCritical : Status := 3

/-- A status is one of the four generated enum ranks. -/
def definedRank (s : Status) : Prop :=
  s = StatusNotSet ∨ s = StatusOK ∨ s = StatusWarning ∨ s = StatusCritical

instance (s : Status) : Decidable (definedRank s) := by
  unfold definedRank StatusNotSet StatusOK StatusWarning StatusCritical
  infer_instance

/-- Embedding of the Go struct `StatusResult`.  Field defaults are the Go
zero values (`var hsr StatusResult`).  `RequestDuration` is Go `float64`
milliseconds, modelled as `ℚ`. -/
structure StatusResult where
  Status : Status := StatusNotSet
  Name : String := ""
  Resource : String := ""
  RequestDuration : ℚ := 0
  StatusCode : Int := 0
  Message : String := ""
deriving Repr, DecidableEq

/-- Behaviour of one invocation of a user-supplied `StatusHandlerFunc`:
it either returns a `StatusResult`, or panics (the string is the `%v`
rendering of the recovered value). -/
inductive HandlerOutcome where
  | completes (r : StatusResult)
  | panics (msg : String)
deriving Repr, DecidableEq

/-- Embedding of the Go struct `DependencyDescriptor`.  The Go field
`HandlerFunc` is a nullable function value; we model `nil` as `none` and a
non-nil function by the outcome of its (single) invocation.  The Go field
`Type` is renamed `Type'` because `Type` is a Lean keyword.  `Timeout` is
a `time.Duration`, i.e. an `int64` nanosecond count. -/
structure DependencyDescriptor where
  Name : String := ""
  Type' : String := ""
  Connection : String := ""
  HandlerFunc : Option HandlerOutcome := none
  Timeout : Int := 0
deriving Repr, DecidableEq

/-- Rendering of a `time.Duration` value interpolated by `fmt.Sprintf("%v", d)`.
This abstracts Go's `time.Duration.String` (which chooses units such as
`50ms`); we render the exact nanosecond count.  No verified property
depends on the rendering beyond the duration value being embedded in the
message text. -/
def goShowDuration (ns : Int) : String := toString ns ++ "ns"

/-- Both `executeHandlerWithTimeout` and `checkURL` substitute a default of
10 seconds (10_000_000_000 ns) when the supplied timeout is zero. -/
def effectiveTimeout (timeout : Int) : Int :=
  if timeout = 0 then 10000000000 else timeout

/-- The `StatusResult` built by the `recover()` branch of the handler
goroutine in `executeHandlerWithTimeout` (heartbeat.go lines 166-171). -/
def panicResult (m : String) : StatusResult :=
  { Status := StatusCritical, Message := "panic in custom handler: " ++ m }

/-- What the handler goroutine deposits in the single-slot result channel:
the handler's own result, or the panic-converted result from `recover()`. -/
def deliveredResult : HandlerOutcome → StatusResult
  | .completes r => r
  | .panics m => panicResult m

/-- The `StatusResult` returned when the bounded context ends before a
result arrives (heartbeat.go lines 192-197). -/
def timeoutResult (timeout : Int) : StatusResult :=
  { Status := StatusCritical
    Message := "custom handler timeout after " ++ goShowDuration timeout }

/-- Embedding of `executeHandlerWithTimeout` (heartbeat.go lines 150-199).
`h` is the behaviour of the handler invocation; `arrivesInTime` is the
scheduling oracle recording whether the caller's `select` took the
result-channel branch (the deposited result arrived before
`timeoutCtx.Done()` fired, i.e. before the timeout elapsed or the caller's
context was cancelled).  When it did not, the caller returns the timeout
result and the late deposit stays in the capacity-one buffer, discarded. -/
def executeHandlerWithTimeout (timeout : Int) (h : HandlerOutcome)
    (arrivesInTime : Bool) : StatusResult :=
  let t := effectiveTimeout timeout
  if arrivesInTime then deliveredResult h else timeoutResult t

/-- Outcome of `url.Parse` on the connection string: an error, or a parsed
URL of which only the scheme is inspected by `checkURL`. -/
inductive ParseOutcome where
  | failure (errMsg : String)
  | success (scheme : String)
deriving Repr, DecidableEq

/-- Outcome of building and issuing the GET request:
`newRequestFailed` models an error from `http.NewRequestWithContext`;
`transportFailed` models `client.Do` returning an error, with `ctxErr` the
text of `ctx.Err()` when the caller's context was cancelled or past its
deadline at that moment (`none` models `ctx.Err() == nil`);
`response` models a received response with its HTTP status code. -/
inductive RequestOutcome where
  | newRequestFailed (errMsg : String)
  | transportFailed (ctxErr : Option String) (errMsg : String)
  | response (code : Int)
deriving Repr, DecidableEq

/-- Oracle bundle for one `checkURL` call.  `elapsedNs` is the wall-clock
time `time.Since(st)` measured right after `client.Do` returns
(nanoseconds; nonnegative, from the monotonic clock). -/
structure URLEnv where
  parsed : ParseOutcome
  request : RequestOutcome
  elapsedNs : Nat
deriving Repr, DecidableEq

/-- Conversion `float64(elapsed.Microseconds()) / 1000` from heartbeat.go
line 249: integer truncation of nanoseconds to microseconds, then division
by 1000 (exact here in `ℚ`; Go performs it in `float64`). -/
def durationMs (ns : Nat) : ℚ := ((ns / 1000 : Nat) : ℚ) / 1000

/-- Embedding of `checkURL` (heartbeat.go lines 201-292). -/
def checkURL (urlStr : String) (timeout : Int) (env : URLEnv) : StatusResult :=
  match env.parsed with
  | .failure e =>
      { Status := StatusCritical, Message := "invalid URL: " ++ e
        Resource := urlStr, Name := urlStr }
  | .success scheme =>
      if scheme ≠ "http" ∧ scheme ≠ "https" then
        { Status := StatusCritical
          Message := "unsupported URL scheme: " ++ scheme ++ " (only http/https allowed)"
          Resource := urlStr, Name := urlStr }
      else
        let hsr : StatusResult :=
          { Name := urlStr, Resource := urlStr, Status := StatusNotSet }
        -- effectiveTimeout configures the HTTP client (heartbeat.go 229-236);
        -- the client's behaviour is part of the RequestOutcome oracle.
        let _t := effectiveTimeout timeout
        match env.request with
        | .newRequestFailed e =>
            { hsr with Status := StatusCritical
                       Message := "failed to create request: " ++ e }
        | .transportFailed ctxErr e =>
            let hsr := { hsr with RequestDuration := durationMs env.elapsedNs }
            match ctxErr with
            | some ce =>
                { hsr with Status := StatusCritical
                           Message := "request cancelled: " ++ ce }
            | none =>
                { hsr with Status := StatusCritical
                           Message := "HTTP request failed: " ++ e }
        | .response code =>
            let hsr := { hsr with RequestDuration := durationMs env.elapsedNs
                                  StatusCode := code }
            if 500 ≤ code then
              { hsr with Status := StatusCritical
                         Message := "server error (HTTP " ++ toString code ++ ")" }
            else if 400 ≤ code then
              { hsr with Status := StatusCritical
                         Message := "client error (HTTP " ++ toString code ++ ")" }
            else if 300 ≤ code then
              { hsr with Status := StatusWarning
                         Message := "redirect (HTTP " ++ toString code ++ ")" }
            else if 200 ≤ code then
              if env.elapsedNs > 3000000000 then
                { hsr with Status := StatusWarning
                           Message := "slow response (" ++ goShowDuration env.elapsedNs ++ ")" }
              else
                { hsr with Status := StatusOK, Message := "ok" }
            else
              { hsr with Status := StatusCritical
                         Message := "unexpected status (HTTP " ++ toString code ++ ")" }

/-- True iff control in `checkURL` reaches `client.Do` (the request is
actually issued): the URL parsed, the scheme passed the allow-list, and
`http.NewRequestWithContext` succeeded.  Mirrors the early-return
structure of heartbeat.go lines 206-247. -/
def urlRequestIssued (env : URLEnv) : Bool :=
  match env.parsed with
  | .failure _ => false
  | .success scheme =>
      if scheme ≠ "http" ∧ scheme ≠ "https" then false
      else
        match env.request with
        | .newRequestFailed _ => false
        | _ => true

/-- Scheduling/network oracle for the goroutine checking one descriptor. -/
structure DepEnv where
  arrivesInTime : Bool
  url : URLEnv
deriving Repr, DecidableEq

/-- Body of the goroutine `checkDeps` spawns per descriptor
(heartbeat.go lines 114-142, before the mutex-protected section):
dispatch on `HandlerFunc`, overwrite `Name` from the descriptor, default
an empty `Resource` to the descriptor's name. -/
def checkOne (d : DependencyDescriptor) (e : DepEnv) : StatusResult :=
  let hsr :=
    match d.HandlerFunc with
    | some h => executeHandlerWithTimeout d.Timeout h e.arrivesInTime
    | none => checkURL d.Connection d.Timeout e.url
  let hsr := { hsr with Name := d.Name }
  if hsr.Resource = "" then { hsr with Resource := d.Name } else hsr

/-- The result list built by `checkDeps` (heartbeat.go line 106 and 140):
each goroutine writes `results[index] = hsr` exactly once, so the list is
determined by index, independent of completion order. -/
def checkDepsResults (deps : List DependencyDescriptor)
    (envs : Nat → DepEnv) : List StatusResult :=
  (List.range deps.length).map fun i => checkOne (deps.getD i {}) (envs i)

/-- Embedding of `checkDeps` (heartbeat.go lines 104-147).  `order` is the
scheduling oracle listing the order in which the goroutines enter the
mutex-protected compare-and-raise on `status` (lines 136-141) — a
permutation of the indices once all goroutines have finished, which
`wg.Wait()` guarantees before returning. -/
def checkDeps (deps : List DependencyDescriptor) (envs : Nat → DepEnv)
    (order : List Nat) : Status × List StatusResult :=
  let results := checkDepsResults deps envs
  let status := order.foldl
    (fun st i =>
      let s := (results.getD i {}).Status
      if s > st then s else st)
    StatusNotSet
  (status, results)

/-- Substring containment on strings, used to state message properties. -/
def containsSubstr (s sub : String) : Bool :=
  (List.range (s.length + 1)).any fun i => sub.data.isPrefixOf (s.data.drop i)

/-! ### Concrete fixtures used to instantiate the theorems -/

/-- A healthy probed endpoint: parses as http, answers 200 in 5ms. -/
def urlEnvOK : URLEnv :=
  { parsed := .success "http", request := .response 200, elapsedNs := 5000000 }

/-- Benign scheduling/network oracle. -/
def depEnvOK : DepEnv := { arrivesInTime := true, url := urlEnvOK }

/-- A URL-check descriptor. -/
def depURL : DependencyDescriptor :=
  { Name := "svc", Connection := "http://svc.local/health" }

/-- A handler-check descriptor whose handler reports Warning. -/
def depHandlerWarn : DependencyDescriptor :=
  { Name := "db"
    HandlerFunc := some (.completes
      { Status := StatusWarning, Resource := "db-conn", Message := "degraded" }) }

/-- A handler-check descriptor whose handler returns the raw status value
`Status(7)`, representable because the Go `Status` type is an `int`. -/
def depHandlerRaw : DependencyDescriptor :=
  { Name := "raw", HandlerFunc := some (.completes { Status := 7 }) }

/-- A handler-check descriptor whose handler panics. -/
def depHandlerPanic : DependencyDescriptor :=
  { Name := "py"
    HandlerFunc := some (.panics
      "runtime error: invalid memory address or nil pointer dereference") }

/-- A two-descriptor batch. -/
def depsW : List DependencyDescriptor := [depURL, depHandlerWarn]

/-- A batch pairing a URL check with a panicking handler. -/
def depsP : List DependencyDescriptor := [depURL, depHandlerPanic]

/-- Oracle assignment for `depsW`. -/
def envsW : Nat → DepEnv := fun _ => depEnvOK

/-! ### Helper lemmas about the compare-and-raise fold -/

theorem ite_gt_eq_max (st x : Int) : (if x > st then x else st) = max st x := by
  rcases le_or_lt x st with h | h
  · simp [not_lt.mpr h, max_eq_left h]
  · simp [h, max_eq_right h.le]

theorem foldl_gt_eq_foldl_max (f : Nat → Int) (order : List Nat) (a : Int) :
    order.foldl (fun st i => if f i > st then f i else st) a
      = (order.map f).foldl max a := by
  induction order generalizing a with
  | nil => rfl
  | cons x l ih =>
      simp only [List.foldl_cons, List.map_cons]
      rw [ih, ite_gt_eq_max]

theorem foldl_max_perm {l₁ l₂ : List Int} (p : l₁.Perm l₂) :
    ∀ a : Int, l₁.foldl max a = l₂.foldl max a := by
  induction p with
  | nil => intro a; rfl
  | cons x _ ih => intro a; simp only [List.foldl_cons]; exact ih _
  | swap x y l =>
      intro a
      simp only [List.foldl_cons]
      rw [sup_right_comm a y x]
  | trans _ _ ih₁ ih₂ => intro a; rw [ih₁ a, ih₂ a]

theorem init_le_foldl_max (l : List Int) : ∀ a : Int, a ≤ l.foldl max a := by
  induction l with
  | nil => intro a; exact le_refl a
  | cons x l ih => intro a; exact le_trans (le_max_left a x) (ih _)

theorem le_foldl_max_of_mem {l : List Int} {x : Int} (hx : x ∈ l) :
    ∀ a : Int, x ≤ l.foldl max a := by
  induction l with
  | nil => cases hx
  | cons y l ih =>
      intro a
      rcases List.mem_cons.mp hx with rfl | h
      · exact le_trans (le_max_right a x) (init_le_foldl_max l _)
      · exact ih h _

theorem foldl_max_mem (l : List Int) : ∀ a : Int,
    l.foldl max a = a ∨ l.foldl max a ∈ l := by
  induction l with
  | nil => intro a; left; rfl
  | cons x l ih =>
      intro a
      rcases ih (max a x) with h | h
      · rcases max_choice a x with hc | hc
        · left; rw [List.foldl_cons, h, hc]
        · right; rw [List.foldl_cons, h, hc]; exact List.mem_cons_self x l
      · right
        rw [List.foldl_cons]
        exact List.mem_cons_of_mem x h

theorem checkDepsResults_length (deps : List DependencyDescriptor)
    (envs : Nat → DepEnv) :
    (checkDepsResults deps envs).length = deps.length := by
  simp [checkDepsResults]

theorem checkDepsResults_getD (deps : List DependencyDescriptor)
    (envs : Nat → DepEnv) {i : Nat} (h : i < deps.length) :
    (checkDepsResults deps envs).getD i {}
      = checkOne (deps.getD i {}) (envs i) := by
  unfold checkDepsResults
  rw [List.getD_eq_getElem?_getD]
  simp [List.getElem?_map, List.getElem?_range, h]

theorem checkDeps_snd (deps : List DependencyDescriptor)
    (envs : Nat → DepEnv) (order : List Nat) :
    (checkDeps deps envs order).2 = checkDepsResults deps envs := rfl

theorem checkDeps_fst_eq_foldl_max (deps : List DependencyDescriptor)
    (envs : Nat → DepEnv) (order : List Nat)
    (hord : order.Perm (List.range deps.length)) :
    (checkDeps deps envs order).1
      = ((checkDepsResults deps envs).map (·.Status)).foldl max StatusNotSet := by
  have h1 : (checkDeps deps envs order).1
      = (order.map fun i => ((checkDepsResults deps envs).getD i {}).Status).foldl
          max StatusNotSet :=
    foldl_gt_eq_foldl_max _ order StatusNotSet
  rw [h1,
    foldl_max_perm (hord.map fun i => ((checkDepsResults deps envs).getD i {}).Status)
      StatusNotSet]
  congr 1
  unfold checkDepsResults
  rw [List.map_map]
  apply List.map_congr_left
  intro i hi
  rw [List.mem_range] at hi
  have := checkDepsResults_getD deps envs hi
  unfold checkDepsResults at this
  simp only [Function.comp_apply]
  rw [this]

theorem definedRank_nonneg {s : Status} (h : definedRank s) : 0 ≤ s := by
  rcases h with rfl | rfl | rfl | rfl <;> decide

theorem checkOne_Name (d : DependencyDescriptor) (e : DepEnv) :
    (checkOne d e).Name = d.Name := by
  unfold checkOne
  cases d.HandlerFunc <;> dsimp only <;> split <;> rfl

/-! ### Claim theorems -/

/-- C1: For every list of descriptors and every completion order of the
concurrently dispatched checks, the overall status returned by the
aggregator `checkDeps` equals the maximum severity over the
per-dependency results it returns under the rank order
NotSet < OK < Warning < Critical (formally: it bounds every result's
status from above and, for a nonempty list, is attained by some result),
provided each result's status is one of the four ranks (cf. C8); in
particular, for the empty descriptor list the overall status is NotSet. -/
theorem checkDeps_overall_is_max_severity
    (deps : List DependencyDescriptor) (envs : Nat → DepEnv)
    (order : List Nat) (hord : order.Perm (List.range deps.length))
    (hranks : ∀ r ∈ (checkDeps deps envs order).2, definedRank r.Status) :
    (∀ r ∈ (checkDeps deps envs order).2,
        r.Status ≤ (checkDeps deps envs order).1) ∧
    (deps = [] → (checkDeps deps envs order).1 = StatusNotSet) ∧
    (deps ≠ [] →
      (checkDeps deps envs order).1
        ∈ (checkDeps deps envs order).2.map (·.Status)) := by
  have hfst := checkDeps_fst_eq_foldl_max deps envs order hord
  have hub : ∀ r ∈ (checkDeps deps envs order).2,
      r.Status ≤ (checkDeps deps envs order).1 := by
    intro r hr
    rw [hfst]
    exact le_foldl_max_of_mem
      (List.mem_map_of_mem (fun x : StatusResult => x.Status)
        (by rwa [checkDeps_snd] at hr)) _
  refine ⟨hub, ?_, ?_⟩
  · intro hnil
    subst hnil
    rw [hfst]
    rfl
  · intro hne
    have hlen : (checkDeps deps envs order).2.length = deps.length := by
      rw [checkDeps_snd]; exact checkDepsResults_length deps envs
    have hne' : (checkDeps deps envs order).2 ≠ [] := by
      intro hcon
      apply hne
      have := congrArg List.length hcon
      rw [hlen] at this
      exact List.eq_nil_of_length_eq_zero this
    obtain ⟨r, hr⟩ := List.exists_mem_of_ne_nil _ hne'
    rcases foldl_max_mem ((checkDepsResults deps envs).map (·.Status))
        StatusNotSet with hz | hm
    · have h1 : (checkDeps deps envs order).1 = StatusNotSet := by rw [hfst, hz]
      have h2 : r.Status ≤ StatusNotSet := h1 ▸ hub r hr
      have h3 : r.Status = StatusNotSet :=
        le_antisymm h2 (definedRank_nonneg (hranks r hr))
      rw [h1, ← h3]
      exact List.mem_map_of_mem (fun x : StatusResult => x.Status) hr
    · rw [hfst, checkDeps_snd]
      exact hm

/-- C1 witness: concrete two-descriptor batch, completion order [1, 0]. -/
theorem checkDeps_overall_is_max_severity_witness :
    (∀ r ∈ (checkDeps depsW envsW [1, 0]).2,
        r.Status ≤ (checkDeps depsW envsW [1, 0]).1) ∧
    (depsW = [] → (checkDeps depsW envsW [1, 0]).1 = StatusNotSet) ∧
    (depsW ≠ [] →
      (checkDeps depsW envsW [1, 0]).1
        ∈ (checkDeps depsW envsW [1, 0]).2.map (·.Status)) :=
  checkDeps_overall_is_max_severity depsW envsW [1, 0] (by decide) (by decide)

/-- C2: `checkDeps` returns exactly one result per descriptor, in the same
position as the input — the results list has the same length as the
descriptor list, the i-th result carries the i-th descriptor's name, and
the results list is identical for every completion order of the
concurrently dispatched checks. -/
theorem checkDeps_order_preserving
    (deps : List DependencyDescriptor) (envs : Nat → DepEnv)
    (order : List Nat) :
    (checkDeps deps envs order).2.length = deps.length ∧
    (∀ i, i < deps.length →
      ((checkDeps deps envs order).2.getD i {}).Name = (deps.getD i {}).Name) ∧
    (∀ order₂, (checkDeps deps envs order₂).2 = (checkDeps deps envs order).2) := by
  refine ⟨checkDepsResults_length deps envs, ?_, fun _ => rfl⟩
  intro i hi
  rw [checkDeps_snd, checkDepsResults_getD deps envs hi, checkOne_Name]

/-- C2 witness: concrete two-descriptor batch. -/
theorem checkDeps_order_preserving_witness :
    (checkDeps depsW envsW [0, 1]).2.length = depsW.length ∧
    (∀ i, i < depsW.length →
      ((checkDeps depsW envsW [0, 1]).2.getD i {}).Name
        = (depsW.getD i {}).Name) ∧
    (∀ order₂,
      (checkDeps depsW envsW order₂).2 = (checkDeps depsW envsW [0, 1]).2) :=
  checkDeps_order_preserving depsW envsW [0, 1]

/-- C3: for every HTTP response received by the URL prober, the result is
classified exactly by status code and elapsed time: code ≥ 500 Critical
"server error"; 400-499 Critical "client error"; 300-399 Warning
"redirect"; 200-299 with elapsed > 3 s Warning "slow response"; 200-299
with elapsed ≤ 3 s OK "ok"; any other code Critical "unexpected status". -/
theorem checkURL_response_classification
    (urlStr : String) (timeout : Int) (scheme : String) (code : Int)
    (ns : Nat) (hscheme : scheme = "http" ∨ scheme = "https") :
    (500 ≤ code →
      (checkURL urlStr timeout ⟨.success scheme, .response code, ns⟩).Status
          = StatusCritical ∧
      (checkURL urlStr timeout ⟨.success scheme, .response code, ns⟩).Message
          = "server error (HTTP " ++ toString code ++ ")") ∧
    (400 ≤ code ∧ code ≤ 499 →
      (checkURL urlStr timeout ⟨.success scheme, .response code, ns⟩).Status
          = StatusCritical ∧
      (checkURL urlStr timeout ⟨.success scheme, .response code, ns⟩).Message
          = "client error (HTTP " ++ toString code ++ ")") ∧
    (300 ≤ code ∧ code ≤ 399 →
      (checkURL urlStr timeout ⟨.success scheme, .response code, ns⟩).Status
          = StatusWarning ∧
      (checkURL urlStr timeout ⟨.success scheme, .response code, ns⟩).Message
          = "redirect (HTTP " ++ toString code ++ ")") ∧
    (200 ≤ code ∧ code ≤ 299 ∧ 3000000000 < ns →
      (checkURL urlStr timeout ⟨.success scheme, .response code, ns⟩).Status
          = StatusWarning ∧
      (checkURL urlStr timeout ⟨.success scheme, .response code, ns⟩).Message
          = "slow response (" ++ goShowDuration ns ++ ")") ∧
    (200 ≤ code ∧ code ≤ 299 ∧ ns ≤ 3000000000 →
      (checkURL urlStr timeout ⟨.success scheme, .response code, ns⟩).Status
          = StatusOK ∧
      (checkURL urlStr timeout ⟨.success scheme, .response code, ns⟩).Message
          = "ok") ∧
    (code < 200 →
      (checkURL urlStr timeout ⟨.success scheme, .response code, ns⟩).Status
          = StatusCritical ∧
      (checkURL urlStr timeout ⟨.success scheme, .response code, ns⟩).Message
          = "unexpected status (HTTP " ++ toString code ++ ")") := by
  have hguard : ¬(scheme ≠ "http" ∧ scheme ≠ "https") := by
    rcases hscheme with rfl | rfl
    · intro hc; exact hc.1 rfl
    · intro hc; exact hc.2 rfl
  refine ⟨fun h => ?_, fun h => ?_, fun h => ?_, fun h => ?_, fun h => ?_,
    fun h => ?_⟩ <;>
    unfold checkURL <;> dsimp only <;> rw [if_neg hguard]
  · rw [if_pos h]
    exact ⟨rfl, rfl⟩
  · rw [if_neg (by omega), if_pos h.1]
    exact ⟨rfl, rfl⟩
  · rw [if_neg (by omega), if_neg (by omega), if_pos h.1]
    exact ⟨rfl, rfl⟩
  · rw [if_neg (by omega), if_neg (by omega), if_neg (by omega), if_pos h.1,
      if_pos (by omega)]
    exact ⟨rfl, rfl⟩
  · rw [if_neg (by omega), if_neg (by omega), if_neg (by omega), if_pos h.1,
      if_neg (by omega)]
    exact ⟨rfl, rfl⟩
  · rw [if_neg (by omega), if_neg (by omega), if_neg (by omega),
      if_neg (by omega)]
    exact ⟨rfl, rfl⟩

/-- C3 witness: an https probe answered 204 in 5 ms. -/
theorem checkURL_response_classification_witness :
    (500 ≤ (204 : Int) →
      (checkURL "https://x" 0 ⟨.success "https", .response 204, 5000000⟩).Status
          = StatusCritical ∧
      (checkURL "https://x" 0 ⟨.success "https", .response 204, 5000000⟩).Message
          = "server error (HTTP " ++ toString (204 : Int) ++ ")") ∧
    (400 ≤ (204 : Int) ∧ (204 : Int) ≤ 499 →
      (checkURL "https://x" 0 ⟨.success "https", .response 204, 5000000⟩).Status
          = StatusCritical ∧
      (checkURL "https://x" 0 ⟨.success "https", .response 204, 5000000⟩).Message
          = "client error (HTTP " ++ toString (204 : Int) ++ ")") ∧
    (300 ≤ (204 : Int) ∧ (204 : Int) ≤ 399 →
      (checkURL "https://x" 0 ⟨.success "https", .response 204, 5000000⟩).Status
          = StatusWarning ∧
      (checkURL "https://x" 0 ⟨.success "https", .response 204, 5000000⟩).Message
          = "redirect (HTTP " ++ toString (204 : Int) ++ ")") ∧
    (200 ≤ (204 : Int) ∧ (204 : Int) ≤ 299 ∧ 3000000000 < (5000000 : Nat) →
      (checkURL "https://x" 0 ⟨.success "https", .response 204, 5000000⟩).Status
          = StatusWarning ∧
      (checkURL "https://x" 0 ⟨.success "https", .response 204, 5000000⟩).Message
          = "slow response (" ++ goShowDuration (5000000 : Nat) ++ ")") ∧
    (200 ≤ (204 : Int) ∧ (204 : Int) ≤ 299 ∧ (5000000 : Nat) ≤ 3000000000 →
      (checkURL "https://x" 0 ⟨.success "https", .response 204, 5000000⟩).Status
          = StatusOK ∧
      (checkURL "https://x" 0 ⟨.success "https", .response 204, 5000000⟩).Message
          = "ok") ∧
    ((204 : Int) < 200 →
      (checkURL "https://x" 0 ⟨.success "https", .response 204, 5000000⟩).Status
          = StatusCritical ∧
      (checkURL "https://x" 0 ⟨.success "https", .response 204, 5000000⟩).Message
          = "unexpected status (HTTP " ++ toString (204 : Int) ++ ")") :=
  checkURL_response_classification "https://x" 0 "https" 204 5000000 (Or.inr rfl)

/-- C4: the handler executor returns the result delivered through the
single-slot channel verbatim when it arrives before the bounded scope
ends — in particular the handler's own result when the handler completes
— and otherwise returns a Critical result whose message states the
effective timeout duration used; a result arriving after the bounded
scope ended never changes the returned value (the timeout return is
independent of the handler's outcome, so the late deposit into the
capacity-one buffer is silently discarded). -/
theorem executeHandlerWithTimeout_bounded (timeout : Int) (h : HandlerOutcome) :
    (executeHandlerWithTimeout timeout h true = deliveredResult h) ∧
    (∀ r, h = .completes r → executeHandlerWithTimeout timeout h true = r) ∧
    ((executeHandlerWithTimeout timeout h false).Status = StatusCritical) ∧
    ((executeHandlerWithTimeout timeout h false).Message
      = "custom handler timeout after " ++ goShowDuration (effectiveTimeout timeout)) ∧
    (∀ h₂, executeHandlerWithTimeout timeout h₂ false
      = executeHandlerWithTimeout timeout h false) := by
  refine ⟨rfl, ?_, rfl, rfl, fun _ => rfl⟩
  rintro r rfl
  rfl

/-- C4 witness: a handler that completes OK, under a 50 ms timeout. -/
theorem executeHandlerWithTimeout_bounded_witness :
    (executeHandlerWithTimeout 50000000 (.completes { Status := StatusOK }) true
        = deliveredResult (.completes { Status := StatusOK })) ∧
    (∀ r, HandlerOutcome.completes { Status := StatusOK } = .completes r →
      executeHandlerWithTimeout 50000000 (.completes { Status := StatusOK }) true = r) ∧
    ((executeHandlerWithTimeout 50000000 (.completes { Status := StatusOK }) false).Status
        = StatusCritical) ∧
    ((executeHandlerWithTimeout 50000000 (.completes { Status := StatusOK }) false).Message
        = "custom handler timeout after " ++ goShowDuration (effectiveTimeout 50000000)) ∧
    (∀ h₂, executeHandlerWithTimeout 50000000 h₂ false
        = executeHandlerWithTimeout 50000000
            (.completes { Status := StatusOK }) false) :=
  executeHandlerWithTimeout_bounded 50000000 (.completes { Status := StatusOK })

theorem string_append_assoc (a b c : String) : a ++ b ++ c = a ++ (b ++ c) := by
  apply String.ext
  simp only [String.data_append, List.append_assoc]

theorem containsSubstr_prefix (pre rest : String) :
    containsSubstr (pre ++ rest) pre = true := by
  unfold containsSubstr
  rw [List.any_eq_true]
  refine ⟨0, List.mem_range.mpr (Nat.succ_pos _), ?_⟩
  rw [List.drop_zero, String.data_append]
  exact List.isPrefixOf_iff_prefix.mpr (List.prefix_append _ _)

/-- C5: a panicking handler is converted by the executor's recover branch
into a Critical result whose message identifies the contained panic
(the message contains "panic"); the panic never escapes into the
aggregator's output — the aggregator returns an ordinary result in the
panicking check's slot — and every sibling slot in the same aggregator
call holds exactly what that sibling's own check produces, unaffected by
the panic. -/
theorem handler_panic_contained
    (deps : List DependencyDescriptor) (envs : Nat → DepEnv)
    (order : List Nat) (j : Nat) (m : String)
    (hj : j < deps.length)
    (hfn : (deps.getD j {}).HandlerFunc = some (.panics m))
    (harr : (envs j).arrivesInTime = true) :
    (((checkDeps deps envs order).2.getD j {}).Status = StatusCritical ∧
      ((checkDeps deps envs order).2.getD j {}).Message
        = "panic in custom handler: " ++ m ∧
      containsSubstr ((checkDeps deps envs order).2.getD j {}).Message "panic"
        = true) ∧
    (∀ i, i < deps.length → i ≠ j →
      (checkDeps deps envs order).2.getD i {}
        = checkOne (deps.getD i {}) (envs i)) := by
  have hres : (checkDeps deps envs order).2.getD j {}
      = checkOne (deps.getD j {}) (envs j) := by
    rw [checkDeps_snd]
    exact checkDepsResults_getD deps envs hj
  have hone : checkOne (deps.getD j {}) (envs j)
      = { Status := StatusCritical
          Message := "panic in custom handler: " ++ m
          Name := (deps.getD j {}).Name
          Resource := (deps.getD j {}).Name } := by
    unfold checkOne
    rw [hfn]
    dsimp only
    rw [harr]
    rfl
  refine ⟨?_, fun i hi _ => by rw [checkDeps_snd]; exact checkDepsResults_getD deps envs hi⟩
  rw [hres, hone]
  refine ⟨rfl, rfl, ?_⟩
  have hsplit : ("panic in custom handler: " : String)
      = "panic" ++ " in custom handler: " := by decide
  show containsSubstr ("panic in custom handler: " ++ m) "panic" = true
  rw [hsplit, string_append_assoc]
  exact containsSubstr_prefix "panic" (" in custom handler: " ++ m)

/-- C5 witness: a batch with one URL check and one panicking handler. -/
theorem handler_panic_contained_witness :
    (((checkDeps depsP envsW [0, 1]).2.getD 1 {}).Status = StatusCritical ∧
      ((checkDeps depsP envsW [0, 1]).2.getD 1 {}).Message
        = "panic in custom handler: "
          ++ "runtime error: invalid memory address or nil pointer dereference" ∧
      containsSubstr ((checkDeps depsP envsW [0, 1]).2.getD 1 {}).Message
        "panic" = true) ∧
    (∀ i, i < depsP.length → i ≠ 1 →
      (checkDeps depsP envsW [0, 1]).2.getD i {}
        = checkOne (depsP.getD i {}) (envsW i)) :=
  handler_panic_contained depsP envsW [0, 1] 1
    "runtime error: invalid memory address or nil pointer dereference"
    (by decide) (by decide) (by decide)

/-- C6 counterexample: an unparseable input (Go's `url.Parse` rejects
`":foo"` with "missing protocol scheme") takes the parse-error path of
`checkURL`: the result is Critical with resource and name set to the raw
input, but its message is the "invalid URL" text, which does not mention
an unsupported scheme — refuting the claim that unparseable inputs also
yield a message identifying the unsupported scheme. -/
theorem checkURL_unparseable_message_not_scheme :
    (checkURL ":foo" 0
        { parsed := .failure "parse \":foo\": missing protocol scheme"
          request := .response 200, elapsedNs := 0 }).Status = StatusCritical ∧
    (checkURL ":foo" 0
        { parsed := .failure "parse \":foo\": missing protocol scheme"
          request := .response 200, elapsedNs := 0 }).Message
      = "invalid URL: parse \":foo\": missing protocol scheme" ∧
    containsSubstr
      (checkURL ":foo" 0
        { parsed := .failure "parse \":foo\": missing protocol scheme"
          request := .response 200, elapsedNs := 0 }).Message
      "unsupported URL scheme" = false := by decide

/-- C6 amended: for every input whose parse succeeds with a scheme other
than exactly "http" or "https" (including the empty string, which parses
with an empty scheme), `checkURL` returns Critical with the
unsupported-scheme message, resource and name set to the raw input, and
no network call is made — the result is independent of the request oracle
and the request-issued flag is false.  For an unparseable input the same
holds except that the message is the "invalid URL" parse-error text. -/
theorem checkURL_scheme_allowlist
    (urlStr : String) (timeout : Int) (req : RequestOutcome) (ns : Nat) :
    (∀ scheme, ¬(scheme = "http" ∨ scheme = "https") →
      checkURL urlStr timeout ⟨.success scheme, req, ns⟩ =
        { Status := StatusCritical
          Message := "unsupported URL scheme: " ++ scheme
            ++ " (only http/https allowed)"
          Resource := urlStr, Name := urlStr } ∧
      urlRequestIssued ⟨.success scheme, req, ns⟩ = false) ∧
    (∀ e, checkURL urlStr timeout ⟨.failure e, req, ns⟩ =
        { Status := StatusCritical, Message := "invalid URL: " ++ e
          Resource := urlStr, Name := urlStr } ∧
      urlRequestIssued ⟨.failure e, req, ns⟩ = false) := by
  constructor
  · intro scheme hbad
    have hcond : scheme ≠ "http" ∧ scheme ≠ "https" := by
      push_neg at hbad
      exact hbad
    constructor
    · unfold checkURL
      dsimp only
      rw [if_pos hcond]
    · unfold urlRequestIssued
      dsimp only
      rw [if_pos hcond]
  · intro e
    exact ⟨rfl, rfl⟩

/-- C6 amended witness: an ftp URL is rejected without a network call. -/
theorem checkURL_scheme_allowlist_witness :
    (∀ scheme, ¬(scheme = "http" ∨ scheme = "https") →
      checkURL "ftp://files.local" 0 ⟨.success scheme, .response 200, 7⟩ =
        { Status := StatusCritical
          Message := "unsupported URL scheme: " ++ scheme
            ++ " (only http/https allowed)"
          Resource := "ftp://files.local", Name := "ftp://files.local" } ∧
      urlRequestIssued ⟨.success scheme, .response 200, 7⟩ = false) ∧
    (∀ e, checkURL "ftp://files.local" 0 ⟨.failure e, .response 200, 7⟩ =
        { Status := StatusCritical, Message := "invalid URL: " ++ e
          Resource := "ftp://files.local", Name := "ftp://files.local" } ∧
      urlRequestIssued ⟨.failure e, .response 200, 7⟩ = false) :=
  checkURL_scheme_allowlist "ftp://files.local" 0 (.response 200) 7

/-- C7: when `client.Do` fails and the caller's context reports an error
(cancellation or deadline exceeded), `checkURL` returns Critical with the
message "request cancelled: <ctx error>"; when `client.Do` fails without
a context error (ordinary transport failure: DNS, connection refused,
TLS), the result is Critical but instead carries the underlying transport
error as "HTTP request failed: <error>", which never takes the
cancellation form. -/
theorem checkURL_cancellation_distinguished
    (urlStr : String) (timeout : Int) (scheme ce e : String) (ns : Nat)
    (hscheme : scheme = "http" ∨ scheme = "https") :
    ((checkURL urlStr timeout
        ⟨.success scheme, .transportFailed (some ce) e, ns⟩).Status
        = StatusCritical ∧
      (checkURL urlStr timeout
        ⟨.success scheme, .transportFailed (some ce) e, ns⟩).Message
        = "request cancelled: " ++ ce) ∧
    ((checkURL urlStr timeout
        ⟨.success scheme, .transportFailed none e, ns⟩).Status
        = StatusCritical ∧
      (checkURL urlStr timeout
        ⟨.success scheme, .transportFailed none e, ns⟩).Message
        = "HTTP request failed: " ++ e ∧
      List.isPrefixOf "request cancelled: ".data
        (checkURL urlStr timeout
          ⟨.success scheme, .transportFailed none e, ns⟩).Message.data
        = false) := by
  have hguard : ¬(scheme ≠ "http" ∧ scheme ≠ "https") := by
    rcases hscheme with rfl | rfl
    · intro hc; exact hc.1 rfl
    · intro hc; exact hc.2 rfl
  unfold checkURL
  dsimp only
  rw [if_neg hguard, if_neg hguard]
  refine ⟨⟨rfl, rfl⟩, rfl, rfl, ?_⟩
  rw [String.data_append]
  rfl

/-- C7 witness: cancelled versus refused connection on the same URL. -/
theorem checkURL_cancellation_distinguished_witness :
    ((checkURL "http://svc.local/health" 0
        ⟨.success "http", .transportFailed (some "context canceled")
          "Get \"http://svc.local/health\": context canceled", 12000⟩).Status
        = StatusCritical ∧
      (checkURL "http://svc.local/health" 0
        ⟨.success "http", .transportFailed (some "context canceled")
          "Get \"http://svc.local/health\": context canceled", 12000⟩).Message
        = "request cancelled: " ++ "context canceled") ∧
    ((checkURL "http://svc.local/health" 0
        ⟨.success "http", .transportFailed none
          "Get \"http://svc.local/health\": context canceled", 12000⟩).Status
        = StatusCritical ∧
      (checkURL "http://svc.local/health" 0
        ⟨.success "http", .transportFailed none
          "Get \"http://svc.local/health\": context canceled", 12000⟩).Message
        = "HTTP request failed: "
          ++ "Get \"http://svc.local/health\": context canceled" ∧
      List.isPrefixOf "request cancelled: ".data
        (checkURL "http://svc.local/health" 0
          ⟨.success "http", .transportFailed none
            "Get \"http://svc.local/health\": context canceled", 12000⟩).Message.data
        = false) :=
  checkURL_cancellation_distinguished "http://svc.local/health" 0 "http"
    "context canceled" "Get \"http://svc.local/health\": context canceled"
    12000 (Or.inl rfl)

theorem checkURL_status_cases (urlStr : String) (timeout : Int) (env : URLEnv) :
    (checkURL urlStr timeout env).Status = StatusOK ∨
    (checkURL urlStr timeout env).Status = StatusWarning ∨
    (checkURL urlStr timeout env).Status = StatusCritical := by
  obtain ⟨p, req, ns⟩ := env
  cases p with
  | failure e => right; right; rfl
  | success scheme =>
      unfold checkURL
      dsimp only
      by_cases h : scheme ≠ "http" ∧ scheme ≠ "https"
      · rw [if_pos h]; right; right; rfl
      · rw [if_neg h]
        cases req with
        | newRequestFailed e => right; right; rfl
        | transportFailed ce e =>
            cases ce with
            | none => right; right; rfl
            | some c => right; right; rfl
        | response code =>
            dsimp only
            split_ifs
            · right; right; rfl
            · right; right; rfl
            · right; left; rfl
            · right; left; rfl
            · left; rfl
            · right; right; rfl

theorem checkOne_Status (d : DependencyDescriptor) (e : DepEnv) :
    (checkOne d e).Status =
      (match d.HandlerFunc with
        | some h => executeHandlerWithTimeout d.Timeout h e.arrivesInTime
        | none => checkURL d.Connection d.Timeout e.url).Status := by
  unfold checkOne
  cases d.HandlerFunc <;> dsimp only <;> split <;> rfl

/-- C8 counterexample: a handler that returns the raw value `Status(7)`
(possible because the Go `Status` type is a plain `int`) has its result
passed through `checkDeps` verbatim: the returned slot's status is 7,
which is not one of the four defined ranks — refuting the claim for
results produced verbatim by user-supplied handler functions. -/
theorem checkDeps_raw_status_passthrough :
    ((checkDeps [depHandlerRaw] (fun _ => depEnvOK) [0]).2.getD 0 {}).Status
        = 7 ∧
    ¬ definedRank
        ((checkDeps [depHandlerRaw] (fun _ => depEnvOK) [0]).2.getD 0 {}).Status := by
  decide

/-- C8 amended: every result returned by `checkDeps` has a status among
the four defined ranks, provided every user-supplied handler that
completes returns such a status; results from the URL path and from the
executor's own timeout and panic paths always do.  (The unamended claim
fails because a completing handler's result is returned verbatim, so an
out-of-range integer status flows through unchecked.) -/
theorem checkDeps_status_defined_ranks
    (deps : List DependencyDescriptor) (envs : Nat → DepEnv)
    (order : List Nat)
    (hh : ∀ d ∈ deps, ∀ r, d.HandlerFunc = some (.completes r) →
      definedRank r.Status) :
    ∀ r ∈ (checkDeps deps envs order).2, definedRank r.Status := by
  intro r hr
  rw [checkDeps_snd] at hr
  unfold checkDepsResults at hr
  rw [List.mem_map] at hr
  obtain ⟨i, hi, rfl⟩ := hr
  rw [List.mem_range] at hi
  have hmem : deps.getD i {} ∈ deps := by
    have hget : deps.getD i {} = deps[i] := by
      rw [List.getD_eq_getElem?_getD, List.getElem?_eq_getElem hi]
      rfl
    rw [hget]
    exact List.getElem_mem hi
  rw [checkOne_Status]
  cases hfn : (deps.getD i {}).HandlerFunc with
  | none =>
      dsimp only
      rcases checkURL_status_cases (deps.getD i {}).Connection
        (deps.getD i {}).Timeout (envs i).url with h | h | h <;>
        rw [h] <;> decide
  | some h =>
      dsimp only
      cases harr : (envs i).arrivesInTime with
      | false =>
          unfold executeHandlerWithTimeout
          dsimp only
          show definedRank StatusCritical
          decide
      | true =>
          unfold executeHandlerWithTimeout
          dsimp only
          cases h with
          | completes r => exact hh _ hmem r hfn
          | panics m =>
              show definedRank StatusCritical
              decide

/-- C8 amended witness: batch whose handler completes with Warning; both
returned slots carry a defined rank. -/
theorem checkDeps_status_defined_ranks_witness :
    definedRank (checkOne (depsW.getD 0 {}) (envsW 0)).Status ∧
    definedRank (checkOne (depsW.getD 1 {}) (envsW 1)).Status := by
  have hh : ∀ d ∈ depsW, ∀ r, d.HandlerFunc = some (.completes r) →
      definedRank r.Status := by
    intro d hd r hfn
    rcases List.mem_cons.mp hd with rfl | hd'
    · simp [depURL] at hfn
    · rcases List.mem_cons.mp hd' with rfl | hnil
      · simp [depHandlerWarn] at hfn
        rw [← hfn]
        decide
      · exact absurd hnil (List.not_mem_nil d)
  constructor
  · exact checkDeps_status_defined_ranks depsW envsW [0, 1] hh _
      (by rw [checkDeps_snd]
          unfold checkDepsResults
          exact List.mem_map_of_mem _ (by decide))
  · exact checkDeps_status_defined_ranks depsW envsW [0, 1] hh _
      (by rw [checkDeps_snd]
          unfold checkDepsResults
          exact List.mem_map_of_mem _ (by decide))

/-- C9 counterexample: on the scheme-rejection path the request is never
issued and `checkURL` returns before `RequestDuration` is assigned, so
the latency field stays at its zero value even though wall-clock time
elapsed — refuting the claim that it is populated regardless of outcome. -/
theorem checkURL_early_return_no_latency :
    (checkURL "ftp://x" 0
        ⟨.success "ftp", .response 200, 5000000000⟩).RequestDuration = 0 ∧
    durationMs 5000000000 = 5000 ∧
    (checkURL "ftp://x" 0
        ⟨.success "ftp", .response 200, 5000000000⟩).RequestDuration
      ≠ durationMs 5000000000 := by
  have h2 : durationMs 5000000000 = 5000 := by
    unfold durationMs
    norm_num
  have h0 : (checkURL "ftp://x" 0
      ⟨.success "ftp", .response 200, 5000000000⟩).RequestDuration = 0 := rfl
  refine ⟨h0, h2, ?_⟩
  rw [h0, h2]
  norm_num

/-- C9 amended: `RequestDuration` is populated with the elapsed
wall-clock time (in milliseconds, `float64(elapsed.Microseconds())/1000`)
exactly on the outcomes where the request was issued — transport failure,
cancellation, or a received response; on the pre-request early returns
(parse failure, scheme rejection, request-creation failure) it keeps its
zero value. -/
theorem checkURL_latency_on_request_paths
    (urlStr : String) (timeout : Int) (scheme : String) (ns : Nat)
    (hscheme : scheme = "http" ∨ scheme = "https") :
    (∀ ce e, (checkURL urlStr timeout
        ⟨.success scheme, .transportFailed ce e, ns⟩).RequestDuration
        = durationMs ns) ∧
    (∀ code, (checkURL urlStr timeout
        ⟨.success scheme, .response code, ns⟩).RequestDuration
        = durationMs ns) ∧
    (∀ e, (checkURL urlStr timeout
        ⟨.success scheme, .newRequestFailed e, ns⟩).RequestDuration = 0) ∧
    (∀ e req, (checkURL urlStr timeout
        ⟨.failure e, req, ns⟩).RequestDuration = 0) ∧
    (∀ s req, ¬(s = "http" ∨ s = "https") →
      (checkURL urlStr timeout ⟨.success s, req, ns⟩).RequestDuration = 0) := by
  have hguard : ¬(scheme ≠ "http" ∧ scheme ≠ "https") := by
    rcases hscheme with rfl | rfl
    · intro hc; exact hc.1 rfl
    · intro hc; exact hc.2 rfl
  refine ⟨?_, ?_, ?_, fun e req => rfl, ?_⟩
  · intro ce e
    unfold checkURL
    dsimp only
    rw [if_neg hguard]
    cases ce <;> rfl
  · intro code
    unfold checkURL
    dsimp only
    rw [if_neg hguard]
    split_ifs <;> rfl
  · intro e
    unfold checkURL
    dsimp only
    rw [if_neg hguard]
  · intro s req hbad
    have hcond : s ≠ "http" ∧ s ≠ "https" := by
      push_neg at hbad
      exact hbad
    unfold checkURL
    dsimp only
    rw [if_pos hcond]

/-- C9 amended witness: an http probe answered 200 after 2.5 ms. -/
theorem checkURL_latency_on_request_paths_witness :
    (∀ ce e, (checkURL "http://svc.local/health" 0
        ⟨.success "http", .transportFailed ce e, 2500000⟩).RequestDuration
        = durationMs 2500000) ∧
    (∀ code, (checkURL "http://svc.local/health" 0
        ⟨.success "http", .response code, 2500000⟩).RequestDuration
        = durationMs 2500000) ∧
    (∀ e, (checkURL "http://svc.local/health" 0
        ⟨.success "http", .newRequestFailed e, 2500000⟩).RequestDuration = 0) ∧
    (∀ e req, (checkURL "http://svc.local/health" 0
        ⟨.failure e, req, 2500000⟩).RequestDuration = 0) ∧
    (∀ s req, ¬(s = "http" ∨ s = "https") →
      (checkURL "http://svc.local/health" 0
        ⟨.success s, req, 2500000⟩).RequestDuration = 0) :=
  checkURL_latency_on_request_paths "http://svc.local/health" 0 "http"
    2500000 (Or.inl rfl)

/-- C10: for every URL string input and every oracle outcome, the result
of `checkURL` has status exactly one of OK, Warning, Critical — never
NotSet: the provisional NotSet assigned before the request is issued is
overwritten on every return path (every early error return sets Critical,
and the final classification switch covers all integer status codes). -/
theorem checkURL_status_never_notset
    (urlStr : String) (timeout : Int) (env : URLEnv) :
    (checkURL urlStr timeout env).Status ≠ StatusNotSet ∧
    ((checkURL urlStr timeout env).Status = StatusOK ∨
     (checkURL urlStr timeout env).Status = StatusWarning ∨
     (checkURL urlStr timeout env).Status = StatusCritical) := by
  refine ⟨?_, checkURL_status_cases urlStr timeout env⟩
  rcases checkURL_status_cases urlStr timeout env with h | h | h <;>
    rw [h] <;> decide

end Heartbeat
